import Mathlib

/-!
Shallow embedding of the palliative-care records backend
(`palliative_project/api/models.py` and `palliative_project/api/views.py`).

Strings store both free text and ISO dates (`YYYY-MM-DD`); `Option` fields
model nullable columns and absent JSON keys.  Request bodies are modelled as
structures whose fields are the JSON keys a handler may read.  Each handler
is embedded as a pure function from the relevant rows (and the parsed body)
to the updated rows and/or the rendered response data.
-/

/-! ## Small helpers: Python truthiness, case folding, substring, int() -/

/-- Python truthiness of an optional string value: `None` and `""` are falsy. -/
def optTruthy : Option String → Bool
  | none => false
  | some s => !(s == "")

/-- Lowercase every character of a character list. -/
def lowerChars (l : List Char) : List Char := l.map Char.toLower

/-- Does `needle` occur as a contiguous sublist of the second argument? -/
def containsChars (needle : List Char) : List Char → Bool
  | [] => needle.isEmpty
  | c :: rest => needle.isPrefixOf (c :: rest) || containsChars needle rest

/-- Model of Django `icontains`: case-insensitive containment of `needle` in `hay`. -/
def icontains (hay needle : String) : Bool :=
  containsChars (lowerChars needle.data) (lowerChars hay.data)

/-- Lexicographic comparison of character lists (by code point), modelling the
ordering of ISO date strings, which agrees with chronological order. -/
def charsLe : List Char → List Char → Bool
  | [], _ => true
  | _ :: _, [] => false
  | a :: as, b :: bs => if a.toNat = b.toNat then charsLe as bs else decide (a.toNat < b.toNat)

/-- Model of Python `str.startswith`. -/
def pyStartsWith (s pre : String) : Bool := pre.data.isPrefixOf s.data

/-- Decimal value of a list of digit characters. -/
def digitsToNat (l : List Char) : Nat := l.foldl (fun acc c => 10 * acc + (c.toNat - 48)) 0

/-- Model of Python `int()` applied to a string: optional surrounding
whitespace, an optional sign, then at least one digit; anything else raises
`ValueError` (modelled as `none`). -/
def pyParseInt (s : String) : Option Int :=
  let cs := ((s.data.dropWhile Char.isWhitespace).reverse.dropWhile Char.isWhitespace).reverse
  match cs with
  | '-' :: rest =>
    if !rest.isEmpty && rest.all Char.isDigit then some (-(digitsToNat rest : Int)) else none
  | '+' :: rest =>
    if !rest.isEmpty && rest.all Char.isDigit then some ((digitsToNat rest : Int)) else none
  | _ => if !cs.isEmpty && cs.all Char.isDigit then some ((digitsToNat cs : Int)) else none

/-- A JSON scalar as it may arrive for a field such as `age`. -/
inductive JsonValue where
  | jnull
  | jint (n : Int)
  | jstr (s : String)
deriving DecidableEq

/-- Model of Python `int(x)` on an optional JSON value: raises (returns `none`)
on a missing key (`TypeError` on `None`), on `null`, and on a non-numeric
string. -/
def pyIntOfJson : Option JsonValue → Option Int
  | none => none
  | some JsonValue.jnull => none
  | some (JsonValue.jint n) => some n
  | some (JsonValue.jstr s) => pyParseInt s

/-! ## Data model (`api/models.py`) -/

/-- Row of the `Inventory` table; `id` is the primary key.  Defaults mirror
the Django field defaults. -/
structure Inventory where
  id : Nat := 0
  item_name : String := ""
  category : String := ""
  count : Int := 0
  description : String := ""
deriving DecidableEq

/-- Row of the `MaterialAllocation` table.  `inventory_item` is the nullable
foreign key to `Inventory` (by id); `return_date = none` means the material is
still with the patient. -/
structure MaterialAllocation where
  id : Nat := 0
  patient_id : Nat := 0
  material_name : String := ""
  inventory_item : Option Nat := none
  allocation_date : String := ""
  is_returnable : Bool := false
  return_date : Option String := none
  is_damaged : Bool := false
deriving DecidableEq

/-- Row of the `Patient` table, carrying (as Django's related manager does)
the list of its material allocations. -/
structure Patient where
  id : Nat := 0
  full_name : String := ""
  gender : String := ""
  dob : String := ""
  age : Int := 0
  address : String := ""
  condition : String := ""
  disease : String := ""
  is_expired : Bool := false
  current_status : String := "Active"
  guardian_name : String := ""
  guardian_phone : String := ""
  relative_name : String := ""
  allocations : List MaterialAllocation := []
deriving DecidableEq

/-- Row of the `Visit` table. -/
structure Visit where
  id : Nat := 0
  patient_id : Nat := 0
  scheduled_date : Option String := none
  visit_date : Option String := none
  time_spent : Option String := none
  is_completed : Bool := false
  service_performed : Option String := none
  condition_assessment : Option String := none
deriving DecidableEq

/-! ## Domain rules -/

/-- `Visit.save` (models.py): after persisting, a non-empty condition
assessment is propagated to the owning patient's `current_status`.  Returns
the owning patient as it stands after the save. -/
def Visit.save (v : Visit) (p : Patient) : Patient :=
  if optTruthy v.condition_assessment then
    { p with current_status := v.condition_assessment.getD "" }
  else p

/-- Body of a `PUT /allocations/{id}` request: every key the handler could
conceivably receive; the handler reads only `return_date` and `is_damaged`. -/
structure AllocationPutBody where
  return_date : Option String := none
  is_damaged : Option Bool := none
  material_name : Option String := none
  inventory_item : Option Nat := none
  allocation_date : Option String := none
  is_returnable : Option Bool := none
  patient : Option Nat := none
deriving DecidableEq

/-- Add one unit back to the inventory row with the given id
(`allocation.inventory_item.count += 1`). -/
def incrementInventory (inv : List Inventory) (iid : Nat) : List Inventory :=
  inv.map (fun it => if it.id = iid then { it with count := it.count + 1 } else it)

/-- Count of the inventory row with the given id, if present. -/
def inventoryCountOf (inv : List Inventory) (iid : Nat) : Option Int :=
  (inv.find? (fun it => decide (it.id = iid))).map (fun it => it.count)

/-- The allocation row after the two assignments of the return branch of
`allocation_detail`: the body's return date is recorded and the damage flag
taken from the body, defaulting to false. -/
def allocWithReturn (alloc : MaterialAllocation) (b : AllocationPutBody) : MaterialAllocation :=
  { alloc with return_date := b.return_date, is_damaged := b.is_damaged.getD false }

/-- `allocation_detail` PUT handler (views.py): when the body carries a
truthy `return_date`, record the return date and the damage flag (defaulting
to false), and restock the linked inventory item exactly when the allocation
is returnable, the recorded damage flag is false, and a linked item exists. -/
def allocation_detail_put (alloc : MaterialAllocation) (inv : List Inventory)
    (b : AllocationPutBody) : MaterialAllocation × List Inventory :=
  if optTruthy b.return_date then
    if (allocWithReturn alloc b).is_returnable && !(allocWithReturn alloc b).is_damaged then
      match (allocWithReturn alloc b).inventory_item with
      | some iid => (allocWithReturn alloc b, incrementInventory inv iid)
      | none => (allocWithReturn alloc b, inv)
    else (allocWithReturn alloc b, inv)
  else (alloc, inv)

theorem allocWithReturn_is_returnable (alloc : MaterialAllocation) (b : AllocationPutBody) :
    (allocWithReturn alloc b).is_returnable = alloc.is_returnable := rfl

theorem allocWithReturn_is_damaged (alloc : MaterialAllocation) (b : AllocationPutBody) :
    (allocWithReturn alloc b).is_damaged = b.is_damaged.getD false := rfl

theorem allocWithReturn_inventory_item (alloc : MaterialAllocation) (b : AllocationPutBody) :
    (allocWithReturn alloc b).inventory_item = alloc.inventory_item := rfl

/-! ## Inventory endpoints -/

/-- Body of a `PUT /inventory/{id}` request. -/
structure InventoryPutBody where
  add_stock : Option Int := none
  item_name : Option String := none
  category : Option String := none
  count : Option Int := none
  description : Option String := none
deriving DecidableEq

/-- The generic `setattr` loop of `inventory_detail`: each model field named
in the body is overwritten with the body's value; unknown keys (such as
`add_stock` itself) are skipped by the `hasattr` guard. -/
def applyInventoryFields (item : Inventory) (b : InventoryPutBody) : Inventory :=
  { item with
    item_name := b.item_name.getD item.item_name
    category := b.category.getD item.category
    count := b.count.getD item.count
    description := b.description.getD item.description }

/-- `inventory_detail` PUT handler (views.py): a body carrying `add_stock`
with a positive value increments `count` and returns immediately; otherwise
(including `add_stock` present but not positive) control falls through to the
generic field-update loop. -/
def inventory_detail_put (item : Inventory) (b : InventoryPutBody) : Inventory :=
  match b.add_stock with
  | some v => if 0 < v then { item with count := item.count + v } else applyInventoryFields item b
  | none => applyInventoryFields item b

/-- Sort relation used by `inventory_history`: allocation date descending. -/
def allocDateDesc (a b : MaterialAllocation) : Prop :=
  charsLe b.allocation_date.data a.allocation_date.data = true

instance : DecidableRel allocDateDesc := fun a b =>
  inferInstanceAs (Decidable (charsLe b.allocation_date.data a.allocation_date.data = true))

/-- `inventory_history` GET handler (views.py): the union of the allocations
directly linked to the item and the unlinked allocations whose free-text
material name contains the item's name case-insensitively, de-duplicated and
ordered by allocation date descending. -/
def inventory_history (item : Inventory) (allocs : List MaterialAllocation) :
    List MaterialAllocation :=
  List.insertionSort allocDateDesc
    (allocs.filter (fun a =>
      decide (a.inventory_item = some item.id) ||
      (decide (a.inventory_item = none) && icontains a.material_name item.item_name)))

/-! ## Patient endpoints -/

/-- Body of a `POST /patients` request. -/
structure PatientPostBody where
  full_name : String := ""
  gender : String := ""
  dob : String := ""
  age : Option JsonValue := none
  address : String := ""
  condition : Option String := none
  disease : String := ""
  guardian_name : String := ""
  guardian_phone : String := ""
  relative_name : Option String := none
deriving DecidableEq

/-- The fixed set of incoming `condition` values that `patient_list` POST
maps onto the initial `current_status`. -/
def conditionsMappedToStatus : List String :=
  ["Stable", "Moderate", "Severe", "Critical", "Bedridden"]

/-- Next auto-increment primary key for the patient table. -/
def nextPatientId (db : List Patient) : Nat :=
  db.foldr (fun p m => max p.id m) 0 + 1

/-- The patient row built by `Patient.objects.create` in `patient_list` POST,
given the already-parsed numeric age. -/
def newPatientFrom (db : List Patient) (b : PatientPostBody) (age : Int) : Patient :=
  { id := nextPatientId db
    full_name := b.full_name
    gender := b.gender
    dob := b.dob
    age := age
    address := b.address
    condition := b.condition.getD ""
    disease := b.disease
    is_expired := false
    current_status :=
      match b.condition with
      | some c => if c ∈ conditionsMappedToStatus then c else "Stable"
      | none => "Stable"
    guardian_name := b.guardian_name
    guardian_phone := b.guardian_phone
    relative_name := b.relative_name.getD ""
    allocations := [] }

/-- `patient_list` POST handler (views.py): a non-parseable age yields a 400
response with the table untouched; otherwise the new patient is appended and
201 returned. -/
def patient_list_post (db : List Patient) (b : PatientPostBody) : Nat × List Patient :=
  match pyIntOfJson b.age with
  | none => (400, db)
  | some n => (201, db ++ [newPatientFrom db b n])

/-- The `allocations` field of one entry of the `patient_list` GET response:
material names of the allocations whose `return_date` is falsy. -/
def patient_list_allocations (p : Patient) : List String :=
  (p.allocations.filter (fun a => !(optTruthy a.return_date))).map
    (fun a => a.material_name)

/-- The all-time material-name list used by the patient export row
(`p.allocations.all()`, no return-date filter). -/
def export_patient_materials (p : Patient) : List String :=
  p.allocations.map (fun a => a.material_name)

/-! ## Patient export (`export_patients`) -/

/-- Query parameters of `GET /export/patients`, with Django's defaults for
absent keys already applied where the code applies them. -/
structure PatientExportParams where
  search : String := ""
  status : String := ""
  min_age : Option String := none
  max_age : Option String := none
  disease : String := ""
  material : String := ""
deriving DecidableEq

/-- String form of a lowercased parameter. -/
def lowerStr (s : String) : String := String.mk (lowerChars s.data)

/-- Search clause: name-contains-or-id-contains over the lowercased search
text; the two querysets are combined with `|`, i.e. the union, which over one
source table is the filter by the disjunction. -/
def searchClause (search : String) (l : List Patient) : List Patient :=
  if lowerStr search = "" then l
  else l.filter (fun p =>
    icontains p.full_name (lowerStr search) || icontains (toString p.id) (lowerStr search))

/-- Status clause of the patient export filter. -/
def statusClause (status : String) (l : List Patient) : List Patient :=
  if status = "" then l
  else if status = "Alive" then l.filter (fun p => decide (p.is_expired = false))
  else if status = "Dead" then l.filter (fun p => decide (p.is_expired = true))
  else if status = "Stable" then
    l.filter (fun p =>
      decide ((p.current_status = "Active" ∨ p.current_status = "Stable") ∧ p.is_expired = false))
  else if status = "Bedridden" then
    l.filter (fun p => decide (p.condition = "Bedridden" ∧ p.is_expired = false))
  else if status = "Not Bedridden" then
    l.filter (fun p => decide (p.condition = "Not Bedridden" ∧ p.is_expired = false))
  else l.filter (fun p => decide (p.current_status = status ∧ p.is_expired = false))

/-- One bound of the age clause: an absent parameter is the integer default
already, a present one goes through `int()`. -/
def ageBound (s : Option String) (dflt : Int) : Option Int :=
  match s with
  | none => some dflt
  | some t => pyParseInt t

/-- Age clause: both bounds must parse (the absent-key defaults 0 and 150 are
integers already); any parse failure silently skips the whole clause. -/
def ageClause (min_age max_age : Option String) (l : List Patient) : List Patient :=
  match ageBound min_age 0, ageBound max_age 150 with
  | some a, some b => l.filter (fun p => decide (a ≤ p.age ∧ p.age ≤ b))
  | _, _ => l

/-- Disease clause: exact match when provided. -/
def diseaseClause (disease : String) (l : List Patient) : List Patient :=
  if disease = "" then l else l.filter (fun p => decide (p.disease = disease))

/-- Material clause: at least one allocation with exactly that material name. -/
def materialClause (material : String) (l : List Patient) : List Patient :=
  if material = "" then l
  else l.filter (fun p => p.allocations.any (fun a => decide (a.material_name = material)))

/-- The full filter pipeline of `export_patients`, clause by clause in source
order. -/
def export_patients_filtered (q : PatientExportParams) (db : List Patient) : List Patient :=
  materialClause q.material
    (diseaseClause q.disease
      (ageClause q.min_age q.max_age
        (statusClause q.status
          (searchClause q.search db))))

/-- Numeric sort key for the expiry flag (`False < True` in Python). -/
def expiredKey (p : Patient) : Nat := if p.is_expired then 1 else 0

/-- The two-key sort order of `patients.sort(key=lambda p: (p.is_expired, -p.id))`:
non-expired before expired, id descending inside each group. -/
def patientExportOrder (p q : Patient) : Prop :=
  expiredKey p < expiredKey q ∨ (expiredKey p = expiredKey q ∧ q.id ≤ p.id)

instance : DecidableRel patientExportOrder := fun p q =>
  inferInstanceAs (Decidable (_ ∨ _))

/-- The filtered and sorted patient list of `export_patients`. -/
def export_patients_sorted (q : PatientExportParams) (db : List Patient) : List Patient :=
  List.insertionSort patientExportOrder (export_patients_filtered q db)

/-- Status display normalization of the patient export, spreadsheet branch:
raw `Active` becomes `Stable`; an expired patient displays `Expired`. -/
def patientStatusDisplayExcel (p : Patient) : String :=
  let raw := if p.current_status = "Active" then "Stable" else p.current_status
  if p.is_expired then "Expired" else raw

/-- Status display normalization of the patient export, PDF branch (the same
two lines, duplicated in the source). -/
def patientStatusDisplayPdf (p : Patient) : String :=
  let raw := if p.current_status = "Active" then "Stable" else p.current_status
  if p.is_expired then "Expired" else raw

/-- One spreadsheet row of the patient export. -/
def patientExportRow (p : Patient) : List String :=
  [toString p.id, p.full_name, toString p.age, p.gender, p.condition,
    patientStatusDisplayExcel p, p.disease,
    String.intercalate ", " (export_patient_materials p)]

/-- The whole patient export endpoint: it renders rows from the stored rows
and performs no write, so the table comes back unchanged. -/
def export_patients_endpoint (q : PatientExportParams) (db : List Patient) :
    List (List String) × List Patient :=
  ((export_patients_sorted q db).map patientExportRow, db)

/-! ## Visit export (`export_visits`) -/

/-- Effective date of a visit: `scheduled_date or visit_date` in Python. -/
def effective_date (v : Visit) : Option String :=
  if optTruthy v.scheduled_date then v.scheduled_date else v.visit_date

/-- Query parameters of `GET /export/visits`. -/
structure VisitExportParams where
  date : Option String := none
  month : Option String := none
deriving DecidableEq

/-- The filtering loop of `export_visits`: visits without an effective date
are dropped; a truthy `date` parameter keeps exact string matches only,
otherwise a truthy `month` parameter keeps visits whose effective date starts
with it. -/
def export_visits_filtered (q : VisitExportParams) (visits : List Visit) : List Visit :=
  visits.filter (fun v =>
    optTruthy (effective_date v) &&
    (if optTruthy q.date then decide ((effective_date v).getD "" = q.date.getD "")
     else if optTruthy q.month then pyStartsWith ((effective_date v).getD "") (q.month.getD "")
     else true))

/-- Sort relation of the visit export: effective date descending. -/
def visitDateDesc (v w : Visit) : Prop :=
  charsLe ((effective_date w).getD "").data ((effective_date v).getD "").data = true

instance : DecidableRel visitDateDesc := fun v w =>
  inferInstanceAs (Decidable (_ = true))

/-- The filtered and sorted visit list of `export_visits`. -/
def export_visits_sorted (q : VisitExportParams) (visits : List Visit) : List Visit :=
  List.insertionSort visitDateDesc (export_visits_filtered q visits)

/-- Condition display of the visit export, spreadsheet branch: only the
literal `Active` is rewritten to `Stable`; an absent assessment stays absent. -/
def visitConditionDisplayExcel (c : Option String) : Option String :=
  if c = some "Active" then some "Stable" else c

/-- Condition display of the visit export, PDF branch: a falsy assessment
displays as a dash, then `Active` is rewritten to `Stable`. -/
def visitConditionDisplayPdf (c : Option String) : String :=
  let s := match c with | none => "-" | some t => if t = "" then "-" else t
  if s = "Active" then "Stable" else s

/-- The visit export endpoint also performs no write. -/
def export_visits_endpoint (q : VisitExportParams) (visits : List Visit) :
    List (Option String × String) × List Visit :=
  ((export_visits_sorted q visits).map
    (fun v => (visitConditionDisplayExcel v.condition_assessment,
               visitConditionDisplayPdf v.condition_assessment)), visits)

/-! ## Order facts about the sort relations -/

theorem charsLe_total : ∀ as bs : List Char, charsLe as bs = true ∨ charsLe bs as = true := by
  intro as
  induction as with
  | nil => intro bs; left; rfl
  | cons a as ih =>
    intro bs
    cases bs with
    | nil => right; rfl
    | cons b bs =>
      by_cases hab : a.toNat = b.toNat
      · rcases ih bs with h | h
        · left; simp [charsLe, hab, h]
        · right; simp [charsLe, hab.symm, h]
      · rcases Nat.lt_or_ge a.toNat b.toNat with h | h
        · left; simp [charsLe, hab, h]
        · have hlt : b.toNat < a.toNat := lt_of_le_of_ne h (fun he => hab he.symm)
          have hba : ¬ b.toNat = a.toNat := fun he => hab he.symm
          right; simp [charsLe, hba, hlt]

theorem charsLe_trans : ∀ as bs cs : List Char,
    charsLe as bs = true → charsLe bs cs = true → charsLe as cs = true := by
  intro as
  induction as with
  | nil => intro bs cs _ _; rfl
  | cons a as ih =>
    intro bs cs h1 h2
    cases bs with
    | nil => simp [charsLe] at h1
    | cons b bs =>
      cases cs with
      | nil => simp [charsLe] at h2
      | cons c cs =>
        by_cases hab : a.toNat = b.toNat
        · by_cases hbc : b.toNat = c.toNat
          · have hac : a.toNat = c.toNat := hab.trans hbc
            simp [charsLe, hab] at h1
            simp [charsLe, hbc] at h2
            simp [charsLe, hac, ih bs cs h1 h2]
          · simp [charsLe, hbc] at h2
            have hac : a.toNat ≠ c.toNat := by omega
            have : a.toNat < c.toNat := by omega
            simp [charsLe, hac, this]
        · simp [charsLe, hab] at h1
          by_cases hbc : b.toNat = c.toNat
          · have hac : a.toNat ≠ c.toNat := by omega
            have : a.toNat < c.toNat := by omega
            simp [charsLe, hac, this]
          · simp [charsLe, hbc] at h2
            have hac : a.toNat ≠ c.toNat := by omega
            have : a.toNat < c.toNat := by omega
            simp [charsLe, hac, this]

instance : IsTotal MaterialAllocation allocDateDesc :=
  ⟨fun a b => charsLe_total b.allocation_date.data a.allocation_date.data⟩

instance : IsTrans MaterialAllocation allocDateDesc :=
  ⟨fun _ _ _ h1 h2 => charsLe_trans _ _ _ h2 h1⟩

instance : IsTotal Visit visitDateDesc :=
  ⟨fun v w => charsLe_total ((effective_date w).getD "").data ((effective_date v).getD "").data⟩

instance : IsTrans Visit visitDateDesc :=
  ⟨fun _ _ _ h1 h2 => charsLe_trans _ _ _ h2 h1⟩

instance : IsTotal Patient patientExportOrder :=
  ⟨fun p q => by unfold patientExportOrder; omega⟩

instance : IsTrans Patient patientExportOrder :=
  ⟨fun p q r h1 h2 => by unfold patientExportOrder at *; omega⟩

/-! ## Facts about inventory restocking -/

theorem incrementInventory_cons (it : Inventory) (rest : List Inventory) (iid : Nat) :
    incrementInventory (it :: rest) iid =
      (if it.id = iid then { it with count := it.count + 1 } else it) ::
        incrementInventory rest iid := rfl

theorem inventoryCountOf_cons (x : Inventory) (l : List Inventory) (iid : Nat) :
    inventoryCountOf (x :: l) iid =
      if x.id = iid then some x.count else inventoryCountOf l iid := by
  by_cases h : x.id = iid <;> simp [inventoryCountOf, List.find?_cons, h]

theorem inventoryCountOf_incrementInventory_self (inv : List Inventory) (iid : Nat) :
    inventoryCountOf (incrementInventory inv iid) iid =
      (inventoryCountOf inv iid).map (fun c => c + 1) := by
  induction inv with
  | nil => rfl
  | cons it rest ih =>
    rw [incrementInventory_cons]
    by_cases h : it.id = iid
    · rw [if_pos h, inventoryCountOf_cons, inventoryCountOf_cons]
      simp [h]
    · rw [if_neg h, inventoryCountOf_cons, inventoryCountOf_cons, if_neg h, if_neg h, ih]

theorem inventoryCountOf_incrementInventory_other (inv : List Inventory) (iid j : Nat)
    (hne : j ≠ iid) :
    inventoryCountOf (incrementInventory inv iid) j = inventoryCountOf inv j := by
  induction inv with
  | nil => rfl
  | cons it rest ih =>
    rw [incrementInventory_cons]
    by_cases h : it.id = iid
    · have hj : ¬ it.id = j := by omega
      rw [if_pos h, inventoryCountOf_cons, inventoryCountOf_cons]
      simp only []
      rw [if_neg hj, if_neg hj, ih]
    · rw [if_neg h, inventoryCountOf_cons, inventoryCountOf_cons, ih]

/-! ## Claim theorems -/

/-- C2: a Visit saved with a non-empty condition_assessment leaves the owning
Patient's current_status equal to that assessment; a Visit saved with an
absent (null or empty) assessment leaves the Patient unchanged. -/
theorem claim_C2_visit_status_propagation (v : Visit) (p : Patient) :
    (∀ s, v.condition_assessment = some s → s ≠ "" → (Visit.save v p).current_status = s) ∧
    ((v.condition_assessment = none ∨ v.condition_assessment = some "") →
      Visit.save v p = p) := by
  constructor
  · intro s hs hne
    unfold Visit.save
    rw [hs]
    have : optTruthy (some s) = true := by simp [optTruthy, hne]
    simp [this]
  · intro h
    unfold Visit.save
    rcases h with h | h <;> rw [h] <;> simp [optTruthy]

/-- C2 witness: concrete instances of both branches. -/
theorem claim_C2_witness :
    (Visit.save { condition_assessment := some "Severe" } { current_status := "Stable" }).current_status = "Severe" ∧
    Visit.save { condition_assessment := none } { current_status := "Stable" } =
      { current_status := "Stable" } :=
  ⟨(claim_C2_visit_status_propagation { condition_assessment := some "Severe" }
      { current_status := "Stable" }).1 "Severe" rfl (by decide),
   (claim_C2_visit_status_propagation { condition_assessment := none }
      { current_status := "Stable" }).2 (Or.inl rfl)⟩

/-- C9: the allocation PUT handler can change only return_date and is_damaged;
the patient link, material name, inventory link, allocation date and
returnable flag are untouched whatever the request body contains, and the
other body keys are never read. -/
theorem claim_C9_allocation_update_frame (alloc : MaterialAllocation)
    (inv : List Inventory) (b : AllocationPutBody) :
    (allocation_detail_put alloc inv b).1.id = alloc.id ∧
    (allocation_detail_put alloc inv b).1.patient_id = alloc.patient_id ∧
    (allocation_detail_put alloc inv b).1.material_name = alloc.material_name ∧
    (allocation_detail_put alloc inv b).1.inventory_item = alloc.inventory_item ∧
    (allocation_detail_put alloc inv b).1.allocation_date = alloc.allocation_date ∧
    (allocation_detail_put alloc inv b).1.is_returnable = alloc.is_returnable := by
  unfold allocation_detail_put
  by_cases h : optTruthy b.return_date = true
  · rw [if_pos h]
    by_cases h2 :
        ((allocWithReturn alloc b).is_returnable && !(allocWithReturn alloc b).is_damaged) = true
    · rw [if_pos h2]
      cases h3 : (allocWithReturn alloc b).inventory_item <;> simp [allocWithReturn]
    · rw [if_neg h2]
      simp [allocWithReturn]
  · rw [if_neg h]
    simp

/-- C10: the patients-list endpoint exposes exactly the material names of the
outstanding allocations (null return_date), while the export row draws on the
material names of all allocations, returned ones included. -/
theorem claim_C10_outstanding_allocations (p : Patient)
    (hdates : ∀ a, a ∈ p.allocations → a.return_date ≠ some "") :
    (∀ name, name ∈ patient_list_allocations p ↔
      ∃ a, a ∈ p.allocations ∧ a.return_date = none ∧ a.material_name = name) ∧
    (∀ a, a ∈ p.allocations → a.material_name ∈ export_patient_materials p) := by
  constructor
  · intro name
    unfold patient_list_allocations
    rw [List.mem_map]
    constructor
    · rintro ⟨a, ha, rfl⟩
      rw [List.mem_filter] at ha
      obtain ⟨hmem, hfl⟩ := ha
      refine ⟨a, hmem, ?_, rfl⟩
      cases hr : a.return_date with
      | none => rfl
      | some s =>
        rw [hr] at hfl
        by_cases hs : s = ""
        · exact absurd (hs ▸ hr) (hdates a hmem)
        · simp [optTruthy, hs] at hfl
    · rintro ⟨a, hmem, hnone, rfl⟩
      exact ⟨a, List.mem_filter.mpr ⟨hmem, by simp [optTruthy, hnone]⟩, rfl⟩
  · intro a ha
    exact List.mem_map_of_mem _ ha

/-- C10 witness: a patient with one outstanding and one returned allocation. -/
theorem claim_C10_witness :
    ("Bed" ∈ patient_list_allocations
        { allocations := [{ material_name := "Bed" },
                          { material_name := "Chair", return_date := some "2024-01-02" }] } ↔
      ∃ a, a ∈ [({ material_name := "Bed" } : MaterialAllocation),
                { material_name := "Chair", return_date := some "2024-01-02" }] ∧
        a.return_date = none ∧ a.material_name = "Bed") :=
  (claim_C10_outstanding_allocations
    { allocations := [{ material_name := "Bed" },
                      { material_name := "Chair", return_date := some "2024-01-02" }] }
    (by decide)).1 "Bed"

/-- C6 counterexample: with `add_stock = -3` alongside a `description` field,
the handler neither changes count by the delta nor short-circuits the generic
update — a non-positive delta falls through to the field loop, which applies
the other keys. -/
theorem claim_C6_counterexample :
    ¬ ((inventory_detail_put
          { id := 1, item_name := "Bed", category := "Government", count := 5, description := "" }
          { add_stock := some (-3), description := some "steel" }).count = 5 + (-3) ∧
       (inventory_detail_put
          { id := 1, item_name := "Bed", category := "Government", count := 5, description := "" }
          { add_stock := some (-3), description := some "steel" }).description = "") := by
  decide

/-- C6 amended: for every PUT /inventory/{id} whose body carries `add_stock`
with a positive integer delta, count increases by exactly that delta and no
other field changes; a non-positive delta does not short-circuit, and the
generic field updates apply instead. -/
theorem claim_C6_add_stock (item : Inventory) (b : InventoryPutBody) (v : Int)
    (hv : b.add_stock = some v) :
    (0 < v →
      (inventory_detail_put item b).count = item.count + v ∧
      (inventory_detail_put item b).id = item.id ∧
      (inventory_detail_put item b).item_name = item.item_name ∧
      (inventory_detail_put item b).category = item.category ∧
      (inventory_detail_put item b).description = item.description) ∧
    (¬ 0 < v → inventory_detail_put item b = applyInventoryFields item b) := by
  have hred : inventory_detail_put item b =
      if 0 < v then { item with count := item.count + v } else applyInventoryFields item b := by
    unfold inventory_detail_put
    rw [hv]
  constructor
  · intro hpos
    rw [hred, if_pos hpos]
    exact ⟨rfl, rfl, rfl, rfl, rfl⟩
  · intro hneg
    rw [hred, if_neg hneg]

/-- C6 witness: restocking 4 units of an item whose body also tries to rename
it leaves everything but count unchanged. -/
theorem claim_C6_witness :
    ({ add_stock := some 4, item_name := some "Cot" } : InventoryPutBody).add_stock = some 4 ∧
    (0 < (4 : Int) →
      (inventory_detail_put { id := 2, item_name := "Bed", count := 7 }
        { add_stock := some 4, item_name := some "Cot" }).count = 7 + 4 ∧
      (inventory_detail_put { id := 2, item_name := "Bed", count := 7 }
        { add_stock := some 4, item_name := some "Cot" }).id = 2 ∧
      (inventory_detail_put { id := 2, item_name := "Bed", count := 7 }
        { add_stock := some 4, item_name := some "Cot" }).item_name = "Bed" ∧
      (inventory_detail_put { id := 2, item_name := "Bed", count := 7 }
        { add_stock := some 4, item_name := some "Cot" }).category = "" ∧
      (inventory_detail_put { id := 2, item_name := "Bed", count := 7 }
        { add_stock := some 4, item_name := some "Cot" }).description = "") :=
  ⟨rfl, (claim_C6_add_stock { id := 2, item_name := "Bed", count := 7 }
    { add_stock := some 4, item_name := some "Cot" } 4 rfl).1⟩

/-- C7: in both export formats and for both entities, a stored `Active`
status or assessment is rendered `Stable`, an expired patient is rendered
`Expired` regardless of its stored status, and the export endpoints return
the stored rows unchanged. -/
theorem claim_C7_status_display (p : Patient) (c : Option String)
    (q : PatientExportParams) (db : List Patient)
    (qv : VisitExportParams) (visits : List Visit) :
    (p.current_status = "Active" → p.is_expired = false →
      patientStatusDisplayExcel p = "Stable" ∧ patientStatusDisplayPdf p = "Stable") ∧
    (p.is_expired = true →
      patientStatusDisplayExcel p = "Expired" ∧ patientStatusDisplayPdf p = "Expired") ∧
    (c = some "Active" →
      visitConditionDisplayExcel c = some "Stable" ∧ visitConditionDisplayPdf c = "Stable") ∧
    (export_patients_endpoint q db).2 = db ∧
    (export_visits_endpoint qv visits).2 = visits := by
  refine ⟨?_, ?_, ?_, rfl, rfl⟩
  · intro hact hexp
    unfold patientStatusDisplayExcel patientStatusDisplayPdf
    rw [hact, hexp]
    exact ⟨rfl, rfl⟩
  · intro hexp
    unfold patientStatusDisplayExcel patientStatusDisplayPdf
    rw [hexp]
    exact ⟨rfl, rfl⟩
  · intro hc
    rw [hc]
    exact ⟨rfl, rfl⟩

/-- C7 witness: a live patient stored as Active, an expired one, and an
Active visit assessment. -/
theorem claim_C7_witness :
    (patientStatusDisplayExcel { current_status := "Active" } = "Stable" ∧
      patientStatusDisplayPdf { current_status := "Active" } = "Stable") ∧
    (patientStatusDisplayExcel { current_status := "Active", is_expired := true } = "Expired" ∧
      patientStatusDisplayPdf { current_status := "Active", is_expired := true } = "Expired") ∧
    (visitConditionDisplayExcel (some "Active") = some "Stable" ∧
      visitConditionDisplayPdf (some "Active") = "Stable") :=
  ⟨(claim_C7_status_display { current_status := "Active" } none {} [] {} []).1 rfl rfl,
   (claim_C7_status_display { current_status := "Active", is_expired := true }
      none {} [] {} []).2.1 rfl,
   (claim_C7_status_display { current_status := "Active", is_expired := true }
      (some "Active") {} [] {} []).2.2.1 rfl⟩

/-! ## Reduction lemmas for the allocation PUT handler -/

theorem allocation_detail_put_fst (alloc : MaterialAllocation) (inv : List Inventory)
    (b : AllocationPutBody) (hset : optTruthy b.return_date = true) :
    (allocation_detail_put alloc inv b).1 = allocWithReturn alloc b := by
  unfold allocation_detail_put
  rw [if_pos hset]
  by_cases h2 :
      ((allocWithReturn alloc b).is_returnable && !(allocWithReturn alloc b).is_damaged) = true
  · rw [if_pos h2]
    cases (allocWithReturn alloc b).inventory_item <;> rfl
  · rw [if_neg h2]

theorem allocation_detail_put_snd_restock (alloc : MaterialAllocation) (inv : List Inventory)
    (b : AllocationPutBody) (iid : Nat)
    (hset : optTruthy b.return_date = true)
    (hiv : alloc.inventory_item = some iid)
    (hret : alloc.is_returnable = true)
    (hdmg : b.is_damaged.getD false = false) :
    (allocation_detail_put alloc inv b).2 = incrementInventory inv iid := by
  unfold allocation_detail_put
  rw [if_pos hset, allocWithReturn_is_returnable, allocWithReturn_is_damaged,
      allocWithReturn_inventory_item, hret, hdmg, hiv]
  rfl

theorem allocation_detail_put_snd_nolink (alloc : MaterialAllocation) (inv : List Inventory)
    (b : AllocationPutBody)
    (hset : optTruthy b.return_date = true)
    (hiv : alloc.inventory_item = none) :
    (allocation_detail_put alloc inv b).2 = inv := by
  unfold allocation_detail_put
  rw [if_pos hset, allocWithReturn_inventory_item, hiv]
  by_cases h2 :
      ((allocWithReturn alloc b).is_returnable && !(allocWithReturn alloc b).is_damaged) = true
  · rw [if_pos h2]
  · rw [if_neg h2]

theorem allocation_detail_put_snd_nocond (alloc : MaterialAllocation) (inv : List Inventory)
    (b : AllocationPutBody)
    (hset : optTruthy b.return_date = true)
    (hcond : ¬ (alloc.is_returnable = true ∧ b.is_damaged.getD false = false)) :
    (allocation_detail_put alloc inv b).2 = inv := by
  unfold allocation_detail_put
  rw [if_pos hset]
  have h2 : ((allocWithReturn alloc b).is_returnable && !(allocWithReturn alloc b).is_damaged)
      = false := by
    rw [allocWithReturn_is_returnable, allocWithReturn_is_damaged]
    cases hr : alloc.is_returnable <;> cases hd : b.is_damaged.getD false <;> simp_all
  rw [h2, if_neg (by decide : ¬ (false = true))]

/-- C1: an allocation update that sets a previously-null return_date records
the return date and the damage flag taken from the request (defaulting to
false), and the linked inventory item's count increases by exactly 1 iff the
allocation is returnable, the recorded damage flag is false, and a linked
inventory item exists; in every other case the inventory table is unchanged. -/
theorem claim_C1_return_restock (alloc : MaterialAllocation) (inv : List Inventory)
    (b : AllocationPutBody)
    (hprev : alloc.return_date = none)
    (hset : optTruthy b.return_date = true)
    (hfk : ∀ iid, alloc.inventory_item = some iid → (inventoryCountOf inv iid).isSome = true) :
    ((allocation_detail_put alloc inv b).1.return_date = b.return_date ∧
      (allocation_detail_put alloc inv b).1.is_damaged = b.is_damaged.getD false) ∧
    ((∃ iid, alloc.inventory_item = some iid ∧
        inventoryCountOf (allocation_detail_put alloc inv b).2 iid =
          (inventoryCountOf inv iid).map (fun c => c + 1)) ↔
      alloc.is_returnable = true ∧ b.is_damaged.getD false = false ∧
        alloc.inventory_item.isSome = true) ∧
    (¬ (alloc.is_returnable = true ∧ b.is_damaged.getD false = false ∧
        alloc.inventory_item.isSome = true) →
      (allocation_detail_put alloc inv b).2 = inv) ∧
    (∀ j, alloc.inventory_item ≠ some j →
      inventoryCountOf (allocation_detail_put alloc inv b).2 j = inventoryCountOf inv j) := by
  refine ⟨⟨?_, ?_⟩, ?_, ?_, ?_⟩
  · rw [allocation_detail_put_fst alloc inv b hset]; rfl
  · rw [allocation_detail_put_fst alloc inv b hset]; rfl
  · constructor
    · rintro ⟨i, hi, hcnt⟩
      by_cases hc : alloc.is_returnable = true ∧ b.is_damaged.getD false = false
      · exact ⟨hc.1, hc.2, by rw [hi]; rfl⟩
      · exfalso
        rw [allocation_detail_put_snd_nocond alloc inv b hset hc] at hcnt
        have hs := hfk i hi
        cases hcv : inventoryCountOf inv i with
        | none => rw [hcv] at hs; simp at hs
        | some c =>
          rw [hcv] at hcnt
          simp at hcnt
    · rintro ⟨hret, hdmg, hsome⟩
      cases hiv : alloc.inventory_item with
      | none => rw [hiv] at hsome; simp at hsome
      | some iid =>
        refine ⟨iid, rfl, ?_⟩
        rw [allocation_detail_put_snd_restock alloc inv b iid hset hiv hret hdmg]
        exact inventoryCountOf_incrementInventory_self inv iid
  · intro hns
    by_cases hc : alloc.is_returnable = true ∧ b.is_damaged.getD false = false
    · cases hiv : alloc.inventory_item with
      | some iid => exact absurd ⟨hc.1, hc.2, by rw [hiv]; rfl⟩ hns
      | none => exact allocation_detail_put_snd_nolink alloc inv b hset hiv
    · exact allocation_detail_put_snd_nocond alloc inv b hset hc
  · intro j hj
    by_cases hc : alloc.is_returnable = true ∧ b.is_damaged.getD false = false
    · cases hiv : alloc.inventory_item with
      | none => rw [allocation_detail_put_snd_nolink alloc inv b hset hiv]
      | some iid =>
        rw [allocation_detail_put_snd_restock alloc inv b iid hset hiv hc.1 hc.2]
        refine inventoryCountOf_incrementInventory_other inv iid j ?_
        intro he
        rw [hiv] at hj
        exact hj (by rw [he])
    · rw [allocation_detail_put_snd_nocond alloc inv b hset hc]

/-! ## Narrowing lemmas for the export filter clauses -/

theorem searchClause_subset (s : String) (l : List Patient) : searchClause s l ⊆ l := by
  unfold searchClause
  split
  · exact fun a h => h
  · exact (List.filter_sublist l).subset

theorem statusClause_subset (s : String) (l : List Patient) : statusClause s l ⊆ l := by
  unfold statusClause
  repeat' split
  all_goals first
    | exact fun a h => h
    | exact (List.filter_sublist l).subset

theorem ageClause_subset (mn mx : Option String) (l : List Patient) : ageClause mn mx l ⊆ l := by
  unfold ageClause
  split
  · exact (List.filter_sublist l).subset
  · exact fun a h => h

theorem diseaseClause_subset (s : String) (l : List Patient) : diseaseClause s l ⊆ l := by
  unfold diseaseClause
  split
  · exact fun a h => h
  · exact (List.filter_sublist l).subset

theorem materialClause_subset (s : String) (l : List Patient) : materialClause s l ⊆ l := by
  unfold materialClause
  split
  · exact fun a h => h
  · exact (List.filter_sublist l).subset

/-- C4: each patient-export filter clause only narrows the previous stage,
and the final output is a permutation of the filtered set that is sorted by
the two-key order: non-expired before expired, id descending within each
group. -/
theorem claim_C4_export_patients_pipeline (q : PatientExportParams) (db : List Patient) :
    (searchClause q.search db ⊆ db ∧
     statusClause q.status (searchClause q.search db) ⊆ searchClause q.search db ∧
     ageClause q.min_age q.max_age (statusClause q.status (searchClause q.search db)) ⊆
       statusClause q.status (searchClause q.search db) ∧
     diseaseClause q.disease
         (ageClause q.min_age q.max_age (statusClause q.status (searchClause q.search db))) ⊆
       ageClause q.min_age q.max_age (statusClause q.status (searchClause q.search db)) ∧
     export_patients_filtered q db ⊆
       diseaseClause q.disease
         (ageClause q.min_age q.max_age (statusClause q.status (searchClause q.search db)))) ∧
    List.Sorted patientExportOrder (export_patients_sorted q db) ∧
    List.Perm (export_patients_sorted q db) (export_patients_filtered q db) := by
  refine ⟨⟨searchClause_subset _ _, statusClause_subset _ _, ageClause_subset _ _ _,
      diseaseClause_subset _ _, materialClause_subset _ _⟩, ?_, ?_⟩
  · exact List.sorted_insertionSort patientExportOrder _
  · exact List.perm_insertionSort patientExportOrder _

/-- C4 witness: the pipeline on a concrete three-patient table with default
parameters yields a sorted output. -/
theorem claim_C4_witness :
    List.Sorted patientExportOrder
      (export_patients_sorted {}
        [{ id := 1 }, { id := 2, is_expired := true }, { id := 3 }]) :=
  (claim_C4_export_patients_pipeline {}
    [{ id := 1 }, { id := 2, is_expired := true }, { id := 3 }]).2.1

/-- C3: the inventory history of an item consists exactly of the allocations
linked to it plus the unlinked allocations whose material name contains the
item's name case-insensitively, without duplicates, ordered by allocation
date descending. -/
theorem claim_C3_inventory_history (item : Inventory) (allocs : List MaterialAllocation)
    (hnd : allocs.Nodup) :
    (∀ a, a ∈ inventory_history item allocs ↔
      a ∈ allocs ∧ (a.inventory_item = some item.id ∨
        (a.inventory_item = none ∧ icontains a.material_name item.item_name = true))) ∧
    (inventory_history item allocs).Nodup ∧
    List.Sorted allocDateDesc (inventory_history item allocs) := by
  refine ⟨?_, ?_, ?_⟩
  · intro a
    unfold inventory_history
    rw [(List.perm_insertionSort allocDateDesc _).mem_iff, List.mem_filter]
    simp [Bool.or_eq_true, Bool.and_eq_true, decide_eq_true_eq]
  · unfold inventory_history
    exact (List.perm_insertionSort allocDateDesc _).nodup_iff.mpr (hnd.filter _)
  · exact List.sorted_insertionSort allocDateDesc _

/-- C3 witness: a three-row allocation table mixing a linked row, a legacy
name-matched row and an unrelated row. -/
theorem claim_C3_witness :
    ([{ id := 1, material_name := "Hospital bed", allocation_date := "2024-01-05" },
      { id := 2, material_name := "Oxygen", inventory_item := some 7,
        allocation_date := "2024-02-01" },
      { id := 3, material_name := "Chair", allocation_date := "2024-03-01" }]
        : List MaterialAllocation).Nodup ∧
    List.Sorted allocDateDesc
      (inventory_history { id := 7, item_name := "Bed" }
        [{ id := 1, material_name := "Hospital bed", allocation_date := "2024-01-05" },
         { id := 2, material_name := "Oxygen", inventory_item := some 7,
           allocation_date := "2024-02-01" },
         { id := 3, material_name := "Chair", allocation_date := "2024-03-01" }]) :=
  ⟨by decide,
   (claim_C3_inventory_history { id := 7, item_name := "Bed" }
     [{ id := 1, material_name := "Hospital bed", allocation_date := "2024-01-05" },
      { id := 2, material_name := "Oxygen", inventory_item := some 7,
        allocation_date := "2024-02-01" },
      { id := 3, material_name := "Chair", allocation_date := "2024-03-01" }]
     (by decide)).2.2⟩

/-- C1 witness: returning a returnable, undamaged wheelchair linked to
inventory row 7 records the return and restocks. -/
theorem claim_C1_witness :
    ({ id := 1, patient_id := 1, material_name := "Wheelchair", inventory_item := some 7,
       allocation_date := "2024-01-01", is_returnable := true }
        : MaterialAllocation).return_date = none ∧
    optTruthy ({ return_date := some "2024-02-01" } : AllocationPutBody).return_date = true ∧
    ((allocation_detail_put
        { id := 1, patient_id := 1, material_name := "Wheelchair", inventory_item := some 7,
          allocation_date := "2024-01-01", is_returnable := true }
        [{ id := 7, item_name := "Wheelchair", category := "Government", count := 2 }]
        { return_date := some "2024-02-01" }).1.return_date = some "2024-02-01" ∧
      (allocation_detail_put
        { id := 1, patient_id := 1, material_name := "Wheelchair", inventory_item := some 7,
          allocation_date := "2024-01-01", is_returnable := true }
        [{ id := 7, item_name := "Wheelchair", category := "Government", count := 2 }]
        { return_date := some "2024-02-01" }).1.is_damaged = false) :=
  ⟨rfl, by decide,
   (claim_C1_return_restock
     { id := 1, patient_id := 1, material_name := "Wheelchair", inventory_item := some 7,
       allocation_date := "2024-01-01", is_returnable := true }
     [{ id := 7, item_name := "Wheelchair", category := "Government", count := 2 }]
     { return_date := some "2024-02-01" }
     rfl (by decide)
     (fun iid h => by
       have h7 := Option.some.inj h
       subst h7
       decide)).1⟩

/-- C5: with an exact-date parameter, the visit export returns exactly the
visits whose effective date (scheduled date, else actual visit date) equals
that literal date string, sorted by effective date descending; visits with
neither date are dropped. -/
theorem claim_C5_export_visits_date_filter (q : VisitExportParams) (visits : List Visit)
    (d : String) (hd : q.date = some d) (hne : d ≠ "") :
    (∀ v, v ∈ export_visits_sorted q visits ↔ (v ∈ visits ∧ effective_date v = some d)) ∧
    List.Sorted visitDateDesc (export_visits_sorted q visits) := by
  have ht : optTruthy (some d) = true := by simp [optTruthy, hne]
  constructor
  · intro v
    unfold export_visits_sorted export_visits_filtered
    rw [(List.perm_insertionSort visitDateDesc _).mem_iff]
    simp only [List.mem_filter]
    rw [hd, if_pos ht]
    constructor
    · rintro ⟨hv, hc⟩
      refine ⟨hv, ?_⟩
      rw [Bool.and_eq_true] at hc
      obtain ⟨h1, h2⟩ := hc
      rw [decide_eq_true_eq] at h2
      cases he : effective_date v with
      | none => rw [he] at h1; simp [optTruthy] at h1
      | some e =>
        rw [he] at h2
        simp at h2
        rw [h2]
    · rintro ⟨hv, he⟩
      refine ⟨hv, ?_⟩
      rw [he]
      simp [optTruthy, hne]
  · exact List.sorted_insertionSort visitDateDesc _

/-- C5 witness: four visits, one matched by scheduled date, one by actual
visit date, one dateless, one on the wrong date. -/
theorem claim_C5_witness :
    ({ date := some "2024-03-15" } : VisitExportParams).date = some "2024-03-15" ∧
    ("2024-03-15" ≠ "") ∧
    (({ id := 1, scheduled_date := some "2024-03-15" } : Visit) ∈
        export_visits_sorted { date := some "2024-03-15" }
          [{ id := 1, scheduled_date := some "2024-03-15" },
           { id := 2 },
           { id := 3, visit_date := some "2024-03-15" },
           { id := 4, scheduled_date := some "2024-03-10" }] ↔
      (({ id := 1, scheduled_date := some "2024-03-15" } : Visit) ∈
          [({ id := 1, scheduled_date := some "2024-03-15" } : Visit),
           { id := 2 },
           { id := 3, visit_date := some "2024-03-15" },
           { id := 4, scheduled_date := some "2024-03-10" }] ∧
        effective_date { id := 1, scheduled_date := some "2024-03-15" } = some "2024-03-15")) :=
  ⟨rfl, by decide,
   (claim_C5_export_visits_date_filter { date := some "2024-03-15" }
     [{ id := 1, scheduled_date := some "2024-03-15" },
      { id := 2 },
      { id := 3, visit_date := some "2024-03-15" },
      { id := 4, scheduled_date := some "2024-03-10" }]
     "2024-03-15" rfl (by decide)).1
     { id := 1, scheduled_date := some "2024-03-15" }⟩

/-- C8: creating a patient with a non-parseable age yields a 400 response and
leaves the table unchanged; with a numeric age the created patient's initial
status is the incoming condition when it belongs to the fixed set
Stable/Moderate/Severe/Critical/Bedridden, and the default Stable otherwise. -/
theorem claim_C8_patient_create (db : List Patient) (b : PatientPostBody) :
    (pyIntOfJson b.age = none → patient_list_post db b = (400, db)) ∧
    (∀ n, pyIntOfJson b.age = some n →
      (patient_list_post db b).1 = 201 ∧
      (patient_list_post db b).2 = db ++ [newPatientFrom db b n] ∧
      (∀ c, b.condition = some c → c ∈ conditionsMappedToStatus →
        (newPatientFrom db b n).current_status = c) ∧
      ((∀ c, b.condition = some c → c ∉ conditionsMappedToStatus) →
        (newPatientFrom db b n).current_status = "Stable")) := by
  constructor
  · intro h
    unfold patient_list_post
    rw [h]
  · intro n h
    refine ⟨?_, ?_, ?_, ?_⟩
    · unfold patient_list_post
      rw [h]
    · unfold patient_list_post
      rw [h]
    · intro c hc hmem
      unfold newPatientFrom
      simp only [hc]
      simp [hmem]
    · intro hall
      unfold newPatientFrom
      cases hcond : b.condition with
      | none => simp
      | some c =>
        have hnot := hall c hcond
        simp [hnot]

/-- C8 witness: a request with age "abc" is rejected without a write; a
request with age 70 and condition Critical creates a patient whose initial
status is Critical. -/
theorem claim_C8_witness :
    (pyIntOfJson ({ age := some (JsonValue.jstr "abc") } : PatientPostBody).age = none ∧
      patient_list_post [] { age := some (JsonValue.jstr "abc") } = (400, [])) ∧
    (pyIntOfJson ({ age := some (JsonValue.jint 70), condition := some "Critical" }
        : PatientPostBody).age = some 70 ∧
      (patient_list_post []
        { age := some (JsonValue.jint 70), condition := some "Critical" }).1 = 201 ∧
      (newPatientFrom [] { age := some (JsonValue.jint 70), condition := some "Critical" }
        70).current_status = "Critical") :=
  ⟨⟨by decide, (claim_C8_patient_create [] { age := some (JsonValue.jstr "abc") }).1 (by decide)⟩,
   ⟨by decide,
    ((claim_C8_patient_create []
      { age := some (JsonValue.jint 70), condition := some "Critical" }).2 70 (by decide)).1,
    (((claim_C8_patient_create []
      { age := some (JsonValue.jint 70), condition := some "Critical" }).2 70
        (by decide)).2.2.1) "Critical" rfl (by decide)⟩⟩
